import Mathlib

/-!
Verification of the batch-execution orchestrator in `scripts/modal_sandbox.py`
(the `goat` repository).  The definitions below are a shallow embedding of the
pure data flow of that script: variant planning (`run_batch_async`, lines
386-404), per-run identifier synthesis (`run_single_task_async`, line 242),
the gather/convert step that turns raised exceptions into synthetic results
(lines 419-443), summary counting (lines 448-460), comparison aggregation
(lines 462-497), artifact persistence keys (lines 289-316, 365) and endpoint
resolution (lines 109-123, 368).

Effectful steps (Modal sandbox creation, process execution, network lookups)
are modelled by explicit outcome parameters: a behaviour value says what the
external platform did, and the embedding reproduces exactly the control flow
the Python source performs around it.
-/

namespace Goat

/-- A benchmark task as read from the batch JSON file: `{id?, prompt, max_turns?}`
(spec section 6; `run_single_task_async` lines 242-244 reads the fields). -/
structure Task where
  id : Option String
  prompt : String
  max_turns : Nat
deriving Repr, DecidableEq, Inhabited

/-- One planned run: the tuple `(task, image, skills_enabled, mcp_enabled)`
appended to `runs` in `run_batch_async` (lines 386-404).  The Modal image is a
function of the two capability flags and is not itself inspected by any claim,
so it is omitted from the embedding. -/
structure PlannedRun where
  task : Task
  skills : Bool
  mcp : Bool
deriving Repr, DecidableEq, Inhabited

/-- The per-run result dict built in `run_single_task_async` (lines 297-307)
and, for faulted runs, in the exception handler of `run_batch_async`
(lines 431-441).  `elapsed_s` is modelled in abstract (natural-number) time
units. -/
structure RunResult where
  id : String
  prompt : String
  model : String
  skills_enabled : Bool
  mcp_enabled : Bool
  output : String
  exit_code : Int
  stderr : String
  elapsed_s : Nat
deriving Repr, DecidableEq, Inhabited

/-- The variant-expansion loop of `run_batch_async` (lines 386-404), embedded
with the same branch structure: in `ab_mode` each task appends a baseline run,
then a skills run when a skills directory is configured, then an MCP run
(whose skills flag is `bool(skills_dir)`) when an MCP config is configured;
outside `ab_mode` one run per task whose flags mirror the configuration.
`skills_dir` and `mcp_config` here are the truthiness of the corresponding
Python arguments. -/
def planRuns (tasks : List Task) (skills_dir mcp_config ab_mode : Bool) :
    List PlannedRun :=
  if ab_mode then
    tasks.foldl (fun runs task =>
      let runs := runs ++ [⟨task, false, false⟩]
      let runs := if skills_dir then runs ++ [⟨task, true, false⟩] else runs
      let runs := if mcp_config then runs ++ [⟨task, skills_dir, true⟩] else runs
      runs) []
  else if mcp_config then
    tasks.foldl (fun runs task => runs ++ [⟨task, skills_dir, true⟩]) []
  else if skills_dir then
    tasks.foldl (fun runs task => runs ++ [⟨task, true, false⟩]) []
  else
    tasks.foldl (fun runs task => runs ++ [⟨task, false, false⟩]) []

/-- Specification-side description of the comparison-mode ladder for one task:
baseline always, `+skills` iff skills is configured, then the MCP variant
(skills flag inherited from the configuration) iff MCP is configured. -/
def specLadder (skills_dir mcp_config : Bool) (t : Task) : List PlannedRun :=
  [⟨t, false, false⟩]
    ++ (if skills_dir then [⟨t, true, false⟩] else [])
    ++ (if mcp_config then [⟨t, skills_dir, true⟩] else [])

theorem foldl_append_one {α β : Type} (f : α → β) :
    ∀ (l : List α) (init : List β),
      l.foldl (fun acc a => acc ++ [f a]) init = init ++ l.map f := by
  intro l
  induction l with
  | nil => intro init; simp
  | cons a l ih => intro init; simp [ih, List.append_assoc]

theorem foldl_append_flat {α β : Type} (g : α → List β) :
    ∀ (l : List α) (init : List β),
      l.foldl (fun acc a => acc ++ g a) init = init ++ l.flatMap g := by
  intro l
  induction l with
  | nil => intro init; simp
  | cons a l ih => intro init; simp [ih, List.append_assoc]

/-- Claim C2: the planner emits, in non-comparison mode, exactly one request
per task with capability set `{skills_enabled, tools_enabled}`; in comparison
mode, per task and in this order, baseline `{false,false}` always, then
`{true,false}` iff skills is configured, then `{skills_enabled,true}` iff
MCP is configured — all requests of one task contiguous, in ladder order
(`run_batch_async` lines 386-404). -/
theorem planner_emits_ladder (tasks : List Task) (skills_dir mcp_config : Bool) :
    planRuns tasks skills_dir mcp_config false
      = tasks.map (fun t => ⟨t, skills_dir, mcp_config⟩) ∧
    planRuns tasks skills_dir mcp_config true
      = tasks.flatMap (specLadder skills_dir mcp_config) := by
  constructor
  · cases skills_dir <;> cases mcp_config <;>
      simp [planRuns, foldl_append_one]
  · have hbody : (fun (runs : List PlannedRun) (task : Task) =>
        let runs := runs ++ [(⟨task, false, false⟩ : PlannedRun)]
        let runs := if skills_dir then runs ++ [⟨task, true, false⟩] else runs
        let runs := if mcp_config then runs ++ [⟨task, skills_dir, true⟩] else runs
        runs)
        = (fun runs t => runs ++ specLadder skills_dir mcp_config t) := by
      funext runs t
      cases skills_dir <;> cases mcp_config <;> simp [specLadder]
    simp only [planRuns, if_true, hbody]
    simp [foldl_append_flat]

/-- Identifier synthesis of `run_single_task_async` line 242
(`task.get("id", f"task-{task_index}")`): the fallback id is built from the
`task_index` argument, which `run_with_semaphore` (lines 410-420) binds to the
position of the run in the flattened `runs` list. -/
def taskIdFor (task : Task) (run_index : Nat) : String :=
  task.id.getD ("task-" ++ toString run_index)

/-- The ordered list of `id` fields carried by the results handed to
aggregation: run `i` of the plan records `taskIdFor` of its task at the flat
run index `i` (both the success path, line 242/298, and the exception path,
line 429, use the run index). -/
def aggregatedIds (tasks : List Task) (skills_dir mcp_config ab_mode : Bool) :
    List String :=
  ((planRuns tasks skills_dir mcp_config ab_mode).enum).map
    (fun p => taskIdFor p.2.task p.1)

/-- Outcome of one dispatched run as seen by `asyncio.gather(...,
return_exceptions=True)`: either the `RunResult` returned by
`run_single_task_async`, or the exception it raised (carried as its message
string).  `asyncio.gather` returns outcomes in argument order regardless of
completion order, which the embedding reflects by indexing with the request
position. -/
def gatherResults (runs : List PlannedRun)
    (exec : Nat → PlannedRun → Except String RunResult) :
    List (Except String RunResult) :=
  runs.enum.map (fun p => exec p.1 p.2)

/-- The synthetic result built by the exception handler of `run_batch_async`
(lines 427-441): the faulted run's task and flags are recovered from
`runs[i]`, the exit code is the sentinel `-1`, and the error text becomes
`stderr`. -/
def syntheticResult (model : String) (runs : List PlannedRun) (i : Nat)
    (e : String) : RunResult :=
  { id := taskIdFor (runs.getD i default).task i
    prompt := (runs.getD i default).task.prompt
    model := model
    skills_enabled := (runs.getD i default).skills
    mcp_enabled := (runs.getD i default).mcp
    output := ""
    exit_code := -1
    stderr := e
    elapsed_s := 0 }

/-- Conversion loop building `clean_results` in `run_batch_async` (lines 424-443): each
gathered outcome is kept as-is when it is a result and replaced by the
synthetic result at its own index when it is an exception. -/
def cleanResults (model : String) (runs : List PlannedRun)
    (results : List (Except String RunResult)) : List RunResult :=
  results.enum.map (fun p =>
    match p.2 with
    | .ok r => r
    | .error e => syntheticResult model runs p.1 e)

theorem cleanResults_length (model : String) (runs : List PlannedRun)
    (exec : Nat → PlannedRun → Except String RunResult) :
    (cleanResults model runs (gatherResults runs exec)).length = runs.length := by
  simp [cleanResults, gatherResults]

theorem cleanResults_getD (model : String) (runs : List PlannedRun)
    (exec : Nat → PlannedRun → Except String RunResult) (i : Nat)
    (h : i < runs.length) :
    (cleanResults model runs (gatherResults runs exec)).getD i default
      = match exec i (runs.getD i default) with
        | .ok r => r
        | .error e => syntheticResult model runs i e := by
  have h1 : i < (cleanResults model runs (gatherResults runs exec)).length := by
    rw [cleanResults_length]; exact h
  rw [List.getD_eq_getElem _ _ h1]
  simp [cleanResults, gatherResults, List.getD_eq_getElem _ _ h,
    List.getElem?_eq_getElem h]

/-- Claim C4: for every planned run request, the scheduler yields exactly one
`RunResult`, in request order: the converted list has one entry per request,
and the entry at index `i` is the request's own result when execution
succeeded, and otherwise the synthetic result carrying the sentinel exit code
`-1` with the error text as `stderr` — no sibling run is aborted or lost
(`run_batch_async` lines 418-443, `asyncio.gather` with
`return_exceptions=True`). -/
theorem scheduler_one_result_per_request (model : String)
    (runs : List PlannedRun)
    (exec : Nat → PlannedRun → Except String RunResult) :
    (cleanResults model runs (gatherResults runs exec)).length = runs.length ∧
    ∀ i, i < runs.length →
      (∀ r, exec i (runs.getD i default) = .ok r →
        (cleanResults model runs (gatherResults runs exec)).getD i default = r) ∧
      (∀ e, exec i (runs.getD i default) = .error e →
        (cleanResults model runs (gatherResults runs exec)).getD i default
            = syntheticResult model runs i e ∧
          (syntheticResult model runs i e).exit_code = -1 ∧
          (syntheticResult model runs i e).stderr = e) := by
  refine ⟨cleanResults_length model runs exec, fun i hi => ⟨?_, ?_⟩⟩
  · intro r hr
    rw [cleanResults_getD model runs exec i hi, hr]
  · intro e he
    refine ⟨?_, rfl, rfl⟩
    rw [cleanResults_getD model runs exec i hi, he]

/-- Witness for C4: a one-request batch whose execution raises is recorded,
at its own index, as the synthetic result with exit code `-1` and the error
text as `stderr`. -/
theorem scheduler_one_result_per_request_witness :
    (cleanResults "m" [⟨⟨some "t1", "p", 10⟩, false, false⟩]
        (gatherResults [⟨⟨some "t1", "p", 10⟩, false, false⟩]
          (fun _ _ => .error "boom"))).getD 0 default
        = syntheticResult "m" [⟨⟨some "t1", "p", 10⟩, false, false⟩] 0 "boom" ∧
      (syntheticResult "m" [⟨⟨some "t1", "p", 10⟩, false, false⟩] 0 "boom").exit_code
        = -1 ∧
      (syntheticResult "m" [⟨⟨some "t1", "p", 10⟩, false, false⟩] 0 "boom").stderr
        = "boom" :=
  ((scheduler_one_result_per_request "m" [⟨⟨some "t1", "p", 10⟩, false, false⟩]
      (fun _ _ => .error "boom")).2 0 (by decide)).2 "boom" rfl

/-- The batch summary dict of `run_batch_async` (lines 448-460); only the
fields the claims mention are carried. -/
structure BatchSummary where
  run_id : String
  model : String
  mode : String
  total_tasks : Nat
  total_runs : Nat
  passed : Nat
  failed : Nat
  total_elapsed_s : Nat
  results : List RunResult
deriving Repr

/-- Summary construction (lines 448-460): `passed` counts results with
`exit_code == 0`, `failed` counts results with `exit_code != 0`,
`total_runs` is `len(runs)`. -/
def buildSummary (run_id model mode : String) (tasks : List Task)
    (runs : List PlannedRun) (clean : List RunResult)
    (total_elapsed : Nat) : BatchSummary :=
  { run_id := run_id
    model := model
    mode := mode
    total_tasks := tasks.length
    total_runs := runs.length
    passed := clean.countP (fun r => r.exit_code == 0)
    failed := clean.countP (fun r => r.exit_code != 0)
    total_elapsed_s := total_elapsed
    results := clean }

/-- Claim C7: for every batch, the produced summary satisfies
`passed + failed = total_runs`, where the counted list is the converted
result list and `total_runs` is the number of planned requests
(`run_batch_async` lines 448-460). -/
theorem summary_passed_plus_failed (run_id model mode : String)
    (tasks : List Task) (runs : List PlannedRun)
    (exec : Nat → PlannedRun → Except String RunResult) (t : Nat) :
    (buildSummary run_id model mode tasks runs
        (cleanResults model runs (gatherResults runs exec)) t).passed
      + (buildSummary run_id model mode tasks runs
          (cleanResults model runs (gatherResults runs exec)) t).failed
      = (buildSummary run_id model mode tasks runs
          (cleanResults model runs (gatherResults runs exec)) t).total_runs := by
  have hlen := cleanResults_length model runs exec
  simp only [buildSummary]
  rw [← hlen]
  have hsplit := List.length_eq_countP_add_countP
    (fun r : RunResult => r.exit_code == 0)
    (cleanResults model runs (gatherResults runs exec))
  rw [hsplit]
  congr 1
  apply List.countP_congr
  intro r _
  simp [bne]

/-- Claim C3 (evidence of the divergence): in comparison mode, a task that
omits an explicit id gets its fallback id synthesized from the flat run
index, so the baseline and skills runs of the same task are recorded under
the distinct ids `task-0` and `task-1` — the single group of
variants-per-task = 2 results does not share one task id. -/
theorem synthesized_ids_differ_across_variants :
    aggregatedIds [{ id := none, prompt := "p", max_turns := 10 }] true false true
        = ["task-0", "task-1"] ∧
      ("task-0" : String) ≠ "task-1" :=
  ⟨rfl, by decide⟩

/-- The effectful steps of `run_single_task_async`, in program order:
`modal.App.lookup` (line 238), `modal.Sandbox.create` (line 254), `sb.exec`
(line 274), the stdout stream loop (line 277), the stderr stream loop
(line 281), `p.wait` (line 284), issuing the artifact-write exec
(`sb.exec.aio` at line 316), draining that exec's stdout (lines 318-319) and
`sb.terminate` (line 321).  Each may raise; the routine has no `try`/`finally`,
so a raise at any step skips every later step.  Issuing the write exec and
draining its output are distinct await points: once the `sb.exec.aio` call
at line 316 has returned, the sandbox-side `mkdir && echo | python3 -c
write` command runs to completion inside the sandbox regardless of the local
client, so a fault during the drain (or later) leaves the artifact
persisted. -/
inductive RunStep
  | lookupApp
  | createSandbox
  | execAgent
  | streamStdout
  | streamStderr
  | waitExit
  | writeExec
  | drainWrite
  | terminateSandbox
deriving Repr, DecidableEq

/-- What the external Modal platform did during one run: at which step (if
any) it raised, and the observable process outputs otherwise. -/
structure SandboxBehaviour where
  failAt : Option RunStep
  stdout : String
  stderr : String
  returncode : Int
  elapsed : Nat
deriving Repr, DecidableEq

/-- What one invocation of the per-run routine did: whether a sandbox
instance came into existence, whether `sb.terminate` completed, whether the
per-task artifact write completed, and the routine's outcome (a returned
result, or the exception that propagated to `asyncio.gather`). -/
structure RunTrace where
  sandboxCreated : Bool
  terminated : Bool
  artifactWritten : Bool
  outcome : Except String RunResult
deriving Repr

/-- The result dict built at lines 297-307 of `run_single_task_async` on the
fault-free path (Python calls `.strip()` on the joined output streams, which
`String.trim` models). -/
def runResultOf (task : Task) (idx : Nat) (model : String)
    (skills mcp : Bool) (b : SandboxBehaviour) : RunResult :=
  { id := taskIdFor task idx
    prompt := task.prompt
    model := model
    skills_enabled := skills
    mcp_enabled := mcp
    output := b.stdout.trim
    exit_code := b.returncode
    stderr := b.stderr.trim
    elapsed_s := b.elapsed }

/-- Straight-line embedding of `run_single_task_async` (lines 224-326).  The
source performs the steps of `RunStep` in order with no `try`/`except` or
`finally` and no context manager around the sandbox: a fault at a step
produces an exception outcome and skips all later steps, so `sb.terminate`
(line 321) runs only when every earlier step succeeded.  The artifact counts
as written once the write exec has been issued (line 316): a fault while
draining its output (lines 318-319) or during termination occurs after the
sandbox-side write command was dispatched, so the artifact persists on those
paths.  `run_single` (lines 129-218) has the same straight-line shape. -/
def runSingleTaskAsync (task : Task) (idx : Nat) (model : String)
    (skills mcp : Bool) (b : SandboxBehaviour) : RunTrace :=
  if b.failAt = some .lookupApp then
    ⟨false, false, false, .error "app lookup raised"⟩
  else if b.failAt = some .createSandbox then
    ⟨false, false, false, .error "sandbox creation raised"⟩
  else if b.failAt = some .execAgent then
    ⟨true, false, false, .error "agent exec raised"⟩
  else if b.failAt = some .streamStdout then
    ⟨true, false, false, .error "stdout streaming raised"⟩
  else if b.failAt = some .streamStderr then
    ⟨true, false, false, .error "stderr streaming raised"⟩
  else if b.failAt = some .waitExit then
    ⟨true, false, false, .error "wait raised"⟩
  else if b.failAt = some .writeExec then
    ⟨true, false, false, .error "artifact write exec raised"⟩
  else if b.failAt = some .drainWrite then
    ⟨true, false, true, .error "write drain raised"⟩
  else if b.failAt = some .terminateSandbox then
    ⟨true, false, true, .error "terminate raised"⟩
  else
    ⟨true, true, true, .ok (runResultOf task idx model skills mcp b)⟩

/-- Claim C5 (counterexample): a fault raised during output streaming — after
the sandbox was created — propagates out of the per-run routine with the
sandbox never terminated, refuting "the environment instance is torn down on
every exit path". -/
theorem sandbox_not_torn_down_on_fault :
    (runSingleTaskAsync ⟨none, "p", 10⟩ 0 "m" false false
        ⟨some .streamStdout, "", "", 0, 0⟩).sandboxCreated = true ∧
      (runSingleTaskAsync ⟨none, "p", 10⟩ 0 "m" false false
        ⟨some .streamStdout, "", "", 0, 0⟩).terminated = false ∧
      (runSingleTaskAsync ⟨none, "p", 10⟩ 0 "m" false false
          ⟨some .streamStdout, "", "", 0, 0⟩).outcome
        = .error "stdout streaming raised" := by
  refine ⟨rfl, rfl, rfl⟩

/-- Claim C5 (amended): teardown is not scoped — `sb.terminate` completes
exactly on the fault-free path, and a sandbox instance exists exactly when no
fault occurred at or before its creation; hence any fault after creation
leaves the instance un-terminated when the routine exits. -/
theorem sandbox_teardown_only_on_fault_free_path (task : Task) (idx : Nat)
    (model : String) (skills mcp : Bool) (b : SandboxBehaviour) :
    ((runSingleTaskAsync task idx model skills mcp b).terminated = true
        ↔ b.failAt = none) ∧
      ((runSingleTaskAsync task idx model skills mcp b).sandboxCreated = true
        ↔ b.failAt ≠ some RunStep.lookupApp
            ∧ b.failAt ≠ some RunStep.createSandbox) := by
  rcases b with ⟨failAt, out, err, rc, el⟩
  cases failAt with
  | none => simp [runSingleTaskAsync]
  | some s => cases s <;> simp [runSingleTaskAsync]

/-- Claim C10 (counterexample): when `sb.terminate` itself raises, the
per-task artifact has already been written (lines 310-319 precede line 321),
yet the routine raises, so the batch also records a synthetic result for this
run — the artifact is not "never written" for a faulted run. -/
theorem artifact_written_despite_fault :
    (runSingleTaskAsync ⟨none, "p", 10⟩ 0 "m" false false
        ⟨some .terminateSandbox, "out", "", 0, 5⟩).artifactWritten = true ∧
      (runSingleTaskAsync ⟨none, "p", 10⟩ 0 "m" false false
          ⟨some .terminateSandbox, "out", "", 0, 5⟩).outcome
        = .error "terminate raised" := by
  refine ⟨rfl, rfl⟩

/-- Claim C10 (amended): no per-task artifact is written exactly when the
fault occurs before the sandbox-side write command is issued — during
environment creation, agent invocation, output streaming, wait, or the
issuing `sb.exec` call itself; a fault raised after the write exec has been
issued — while draining its output or during `sb.terminate` — leaves the
artifact persisted even though the routine raises and the batch records a
synthetic result for that run. -/
theorem no_artifact_only_on_pre_write_fault (task : Task) (idx : Nat)
    (model : String) (skills mcp : Bool) (b : SandboxBehaviour) (st : RunStep)
    (h : b.failAt = some st) :
    (st ≠ RunStep.drainWrite → st ≠ RunStep.terminateSandbox →
      (runSingleTaskAsync task idx model skills mcp b).artifactWritten = false ∧
        ∃ e, (runSingleTaskAsync task idx model skills mcp b).outcome
          = .error e) ∧
      (st = RunStep.drainWrite ∨ st = RunStep.terminateSandbox →
        (runSingleTaskAsync task idx model skills mcp b).artifactWritten = true ∧
          ∃ e, (runSingleTaskAsync task idx model skills mcp b).outcome
            = .error e) := by
  rcases b with ⟨failAt, out, err, rc, el⟩
  simp only at h
  subst h
  cases st <;> simp [runSingleTaskAsync]

/-- Witness for the amended C10: a fault raised by the agent exec leaves no
artifact, while a fault raised while draining the write exec's output leaves
the artifact persisted; both propagate as exceptions. -/
theorem no_artifact_only_on_pre_write_fault_witness :
    ((runSingleTaskAsync ⟨none, "p", 10⟩ 0 "m" false false
        ⟨some .execAgent, "", "", 0, 0⟩).artifactWritten = false ∧
      ∃ e, (runSingleTaskAsync ⟨none, "p", 10⟩ 0 "m" false false
          ⟨some .execAgent, "", "", 0, 0⟩).outcome = .error e) ∧
      ((runSingleTaskAsync ⟨none, "p", 10⟩ 0 "m" false false
          ⟨some .drainWrite, "", "", 0, 0⟩).artifactWritten = true ∧
        ∃ e, (runSingleTaskAsync ⟨none, "p", 10⟩ 0 "m" false false
            ⟨some .drainWrite, "", "", 0, 0⟩).outcome = .error e) :=
  ⟨(no_artifact_only_on_pre_write_fault ⟨none, "p", 10⟩ 0 "m" false false
      ⟨some .execAgent, "", "", 0, 0⟩ .execAgent rfl).1 (by decide) (by decide),
    (no_artifact_only_on_pre_write_fault ⟨none, "p", 10⟩ 0 "m" false false
      ⟨some .drainWrite, "", "", 0, 0⟩ .drainWrite rfl).2 (Or.inl rfl)⟩

/-- The variant suffix of the per-task artifact file name
(`run_single_task_async` lines 289-296). -/
def resultSuffix (skills mcp : Bool) : String :=
  if mcp && skills then "-skills-mcp"
  else if skills then "-skills"
  else if mcp then "-mcp"
  else "-baseline"

/-- Directory key `results_dir = f"/results/{run_id}"`
(`run_batch_async` line 365). -/
def resultsDirFor (run_id : String) : String :=
  "/results/" ++ run_id

/-- The full artifact key:
`f"{results_dir}/{task_id}{result_suffix}.json"` (lines 311-316). -/
def artifactPath (run_id task_id : String) (skills mcp : Bool) : String :=
  resultsDirFor run_id ++ "/" ++ task_id ++ resultSuffix skills mcp ++ ".json"

/-- The results volume, modelled as a map from file paths to the stored
result value (the write at line 316 overwrites the file at its path; JSON
serialisation of equal dicts is equal, so the stored value stands for the
file's content). -/
def Store : Type :=
  String → Option RunResult

/-- One file write: the path now holds the new content, all other paths are
unchanged. -/
def storeWrite (σ : Store) (path : String) (r : RunResult) : Store :=
  fun p => if p = path then some r else σ p

/-- Persisting one run result (lines 309-316): the key is built from the
result's task id and capability flags under the run's directory, and the
content is the result itself. -/
def persistResult (σ : Store) (run_id : String) (r : RunResult) : Store :=
  storeWrite σ (artifactPath run_id r.id r.skills_enabled r.mcp_enabled) r

/-- Claim C8: the artifact key is a function of the task id and the
capability-set suffix only (plus the run's directory), and persisting the
same result twice leaves the store exactly as persisting it once — every
path reads back the same value. -/
theorem persist_idempotent (σ : Store) (run_id : String) (r r' : RunResult)
    (hid : r.id = r'.id) (hs : r.skills_enabled = r'.skills_enabled)
    (hm : r.mcp_enabled = r'.mcp_enabled) :
    artifactPath run_id r.id r.skills_enabled r.mcp_enabled
        = artifactPath run_id r'.id r'.skills_enabled r'.mcp_enabled ∧
      ∀ p, persistResult (persistResult σ run_id r) run_id r p
        = persistResult σ run_id r p := by
  refine ⟨by rw [hid, hs, hm], fun p => ?_⟩
  simp only [persistResult, storeWrite]
  by_cases hp :
      p = artifactPath run_id r.id r.skills_enabled r.mcp_enabled <;>
    simp [hp]

/-- Witness for C8: two results that agree on id and capability flags but
differ in output target the same key, and the double write equals the single
write at a sample path. -/
theorem persist_idempotent_witness :
    artifactPath "20250101_000000" "t1" true false
        = artifactPath "20250101_000000" "t1" true false ∧
      ∀ p, persistResult
          (persistResult (fun _ => none) "20250101_000000"
            ⟨"t1", "p", "m", true, false, "out", 0, "", 3⟩)
          "20250101_000000" ⟨"t1", "p", "m", true, false, "out", 0, "", 3⟩ p
        = persistResult (fun _ => none) "20250101_000000"
            ⟨"t1", "p", "m", true, false, "out", 0, "", 3⟩ p :=
  persist_idempotent (fun _ => none) "20250101_000000"
    ⟨"t1", "p", "m", true, false, "out", 0, "", 3⟩
    ⟨"t1", "p", "m", true, false, "other", 1, "e", 7⟩ rfl rfl rfl

/-- Outcome of the Modal function lookup inside `discover_litellm_url`
(lines 111-117): either `fn.get_web_url()` produced a url string (possibly
empty/falsy), or the lookup raised. -/
inductive LookupOutcome
  | ok (url : String)
  | err
deriving Repr, DecidableEq

/-- The fixed local fallback endpoint (line 123). -/
def defaultLitellmUrl : String :=
  "http://localhost:4000"

/-- A resolved endpoint together with whether the fallback warning was
printed (lines 120-122). -/
structure Resolved where
  url : String
  warned : Bool
deriving Repr, DecidableEq

/-- Discovery, `discover_litellm_url` (lines 109-123): return the discovered url when
the lookup succeeded with a truthy url; on any exception, or a falsy url,
print a warning and return the local default. -/
def discoverLitellmUrl (o : LookupOutcome) : Resolved :=
  match o with
  | .ok url => if url.isEmpty then ⟨defaultLitellmUrl, true⟩ else ⟨url, false⟩
  | .err => ⟨defaultLitellmUrl, true⟩

/-- Resolution step `base_url = api_url or discover_litellm_url()` (`run_batch_async` line
368; `run_single` line 146 is identical): a truthy override wins, otherwise
discovery runs. -/
def resolveBaseUrl (api_url : Option String) (o : LookupOutcome) : Resolved :=
  match api_url with
  | some u => if u.isEmpty then discoverLitellmUrl o else ⟨u, false⟩
  | none => discoverLitellmUrl o

/-- Claim C9: the batch's single base URL is resolved by precedence — the
explicit override when provided; otherwise the discovered routing-service
URL; and when discovery fails the fixed local default
`http://localhost:4000` is returned with a warning, never an abort
(`discover_litellm_url` lines 109-123, `run_batch_async` line 368;
resolution is a total function, so discovery failure cannot abort the
batch). -/
theorem endpoint_resolution_precedence (api_url : Option String)
    (o : LookupOutcome) :
    (∀ u, api_url = some u → ¬u.isEmpty →
        resolveBaseUrl api_url o = ⟨u, false⟩) ∧
      (∀ u, api_url = none → o = .ok u → ¬u.isEmpty →
        resolveBaseUrl api_url o = ⟨u, false⟩) ∧
      (api_url = none → o = .err →
        resolveBaseUrl api_url o = ⟨defaultLitellmUrl, true⟩) := by
  refine ⟨?_, ?_, ?_⟩
  · intro u hu hne
    subst hu
    simp [resolveBaseUrl, hne]
  · intro u ha ho hne
    subst ha; subst ho
    simp [resolveBaseUrl, discoverLitellmUrl, hne]
  · intro ha ho
    subst ha; subst ho
    simp [resolveBaseUrl, discoverLitellmUrl]

/-- Witness for C9: the override wins even when discovery would fail; with no
override a discovered url is used; with no override and a failed lookup the
default is returned with a warning. -/
theorem endpoint_resolution_precedence_witness :
    resolveBaseUrl (some "https://x.example") LookupOutcome.err
        = ⟨"https://x.example", false⟩ ∧
      resolveBaseUrl none (LookupOutcome.ok "https://y.example")
        = ⟨"https://y.example", false⟩ ∧
      resolveBaseUrl none LookupOutcome.err = ⟨defaultLitellmUrl, true⟩ :=
  ⟨(endpoint_resolution_precedence (some "https://x.example")
      LookupOutcome.err).1 "https://x.example" rfl (by decide),
    (endpoint_resolution_precedence none
      (LookupOutcome.ok "https://y.example")).2.1 "https://y.example" rfl rfl
      (by decide),
    (endpoint_resolution_precedence none LookupOutcome.err).2.2 rfl rfl⟩

/-- One entry of the `comparisons` section of the batch summary
(`run_batch_async` lines 476-487): keyed by the first group member's id,
with per-axis pass/time fields present only when a group member was assigned
to that axis. -/
structure Comparison where
  id : String
  baseline_pass : Option Bool
  baseline_time_s : Option Nat
  skills_pass : Option Bool
  skills_time_s : Option Nat
  mcp_pass : Option Bool
  mcp_time_s : Option Nat
deriving Repr, DecidableEq

/-- Axis assignment for one group member (lines 478-486): baseline when both
flags are off, skills when only skills is on, MCP whenever MCP is on. -/
def assignAxis (c : Comparison) (r : RunResult) : Comparison :=
  if !r.skills_enabled && !r.mcp_enabled then
    { c with
      baseline_pass := some (r.exit_code == 0)
      baseline_time_s := some r.elapsed_s }
  else if r.skills_enabled && !r.mcp_enabled then
    { c with
      skills_pass := some (r.exit_code == 0)
      skills_time_s := some r.elapsed_s }
  else if r.mcp_enabled then
    { c with
      mcp_pass := some (r.exit_code == 0)
      mcp_time_s := some r.elapsed_s }
  else c

/-- Building one comparison from one group (lines 476-486): the id is
`group[0]["id"]`, then each member is assigned to its axis in order. -/
def mkComparison (group : List RunResult) : Comparison :=
  group.foldl assignAxis
    { id := group.headI.id
      baseline_pass := none
      baseline_time_s := none
      skills_pass := none
      skills_time_s := none
      mcp_pass := none
      mcp_time_s := none }

/-- The stride loop of lines 471-487:
`for i in range(0, len(clean_results), variants_per_task)` takes the slice
`clean_results[i:i+V]` and breaks on a group shorter than `V`.  The `fuel`
argument bounds the number of loop iterations; any fuel of at least the list
length reproduces the loop exactly, since `V ≥ 1` consumes at least one
element per iteration (Python raises for a zero stride, which the `0 < V`
guard renders as the empty output — all call sites have `V ≥ 1`). -/
def buildComparisonsGo (V : Nat) : Nat → List RunResult → List Comparison
  | 0, _ => []
  | fuel + 1, l =>
    if 0 < V ∧ V ≤ l.length then
      mkComparison (l.take V) :: buildComparisonsGo V fuel (l.drop V)
    else []

/-- Aggregation entry point: the `comparisons` list produced for the summary in A/B mode
(lines 471-487). -/
def buildComparisons (V : Nat) (l : List RunResult) : List Comparison :=
  buildComparisonsGo V l.length l

/-- Specification-side chunking: the consecutive groups of exactly `V`
results, with any short trailing group discarded. -/
def fullChunksGo (V : Nat) : Nat → List RunResult → List (List RunResult)
  | 0, _ => []
  | fuel + 1, l =>
    if 0 < V ∧ V ≤ l.length then
      l.take V :: fullChunksGo V fuel (l.drop V)
    else []

/-- Specification-side chunking of a whole result list. -/
def fullChunks (V : Nat) (l : List RunResult) : List (List RunResult) :=
  fullChunksGo V l.length l

theorem buildComparisonsGo_eq_map (V : Nat) :
    ∀ (fuel : Nat) (l : List RunResult),
      buildComparisonsGo V fuel l = (fullChunksGo V fuel l).map mkComparison := by
  intro fuel
  induction fuel with
  | zero => intro l; rfl
  | succ fuel ih =>
    intro l
    simp only [buildComparisonsGo, fullChunksGo]
    by_cases h : 0 < V ∧ V ≤ l.length
    · simp [h, ih]
    · simp [h]

theorem fullChunksGo_length (V : Nat) (hV : 0 < V) :
    ∀ (fuel : Nat) (l : List RunResult), l.length ≤ fuel →
      (fullChunksGo V fuel l).length = l.length / V := by
  intro fuel
  induction fuel with
  | zero =>
    intro l hl
    have h0 : l.length = 0 := Nat.le_zero.mp hl
    simp [fullChunksGo, h0]
  | succ fuel ih =>
    intro l hl
    simp only [fullChunksGo]
    by_cases h : 0 < V ∧ V ≤ l.length
    · have hfuel : (l.drop V).length ≤ fuel := by
        rw [List.length_drop]
        omega
      rw [if_pos h, List.length_cons, ih (l.drop V) hfuel, List.length_drop,
        Nat.div_eq_sub_div hV h.2]
    · rw [if_neg h]
      have hlt : l.length < V := by
        rcases Nat.lt_or_ge l.length V with h1 | h1
        · exact h1
        · exact absurd ⟨hV, h1⟩ h
      simp [Nat.div_eq_of_lt hlt]

theorem fullChunksGo_mem_length (V : Nat) :
    ∀ (fuel : Nat) (l g : List RunResult),
      g ∈ fullChunksGo V fuel l → g.length = V := by
  intro fuel
  induction fuel with
  | zero => intro l g hg; simp [fullChunksGo] at hg
  | succ fuel ih =>
    intro l g hg
    simp only [fullChunksGo] at hg
    by_cases h : 0 < V ∧ V ≤ l.length
    · rw [if_pos h] at hg
      rcases List.mem_cons.mp hg with rfl | hg
      · simp [List.length_take, min_eq_left h.2]
      · exact ih _ _ hg
    · rw [if_neg h] at hg
      simp at hg

/-- Claim C1 (amended): the comparison step never fails — it is a total
function that emits exactly `⌊n / V⌋` comparisons, one per consecutive full
group of `V` results, silently discarding any short trailing group and
performing no task-id uniformity check on a group (each comparison is built
by `mkComparison`, which labels the group with its first member's id
regardless of the other members' ids). -/
theorem comparisons_total_fixed_stride (V : Nat) (l : List RunResult)
    (hV : 0 < V) :
    buildComparisons V l = (fullChunks V l).map mkComparison ∧
      (fullChunks V l).length = l.length / V ∧
      ∀ g ∈ fullChunks V l, g.length = V :=
  ⟨buildComparisonsGo_eq_map V l.length l,
    fullChunksGo_length V hV l.length l (le_refl _),
    fun g hg => fullChunksGo_mem_length V l.length l g hg⟩

/-- Witness for the amended C1, at stride 2 over three results. -/
theorem comparisons_total_fixed_stride_witness :
    0 < 2 ∧
      (buildComparisons 2 (List.replicate 3 (default : RunResult))
          = (fullChunks 2 (List.replicate 3 (default : RunResult))).map
              mkComparison ∧
        (fullChunks 2 (List.replicate 3 (default : RunResult))).length
          = (List.replicate 3 (default : RunResult)).length / 2 ∧
        ∀ g ∈ fullChunks 2 (List.replicate 3 (default : RunResult)),
          g.length = 2) :=
  ⟨by decide,
    comparisons_total_fixed_stride 2 (List.replicate 3 (default : RunResult))
      (by decide)⟩

/-- Claim C1 (counterexample): with variants-per-task 2, a first group whose
members carry the differing ids `a` and `b` still yields a comparison
(labelled `a`), and the trailing one-element group `c` is silently dropped —
no data-integrity error interrupts aggregation, contradicting "fails loudly
and emits no Comparison for that group". -/
theorem mixed_group_comparison_emitted_and_trailing_dropped :
    buildComparisons 2
        [⟨"a", "", "", false, false, "", 0, "", 1⟩,
         ⟨"b", "", "", true, false, "", 0, "", 2⟩,
         ⟨"c", "", "", false, false, "", 0, "", 3⟩]
      = [⟨"a", some true, some 1, some true, some 2, none, none⟩] := by
  rfl

end Goat
